import Mathlib

/-!
Verification of `src/verification/verify_taskpane.py`.

The script launches a headless Chromium via Playwright inside a
`with sync_playwright() as p:` block, navigates a fresh page to
`file://{cwd}/src/taskpane/taskpane.html`, checks whether the element
selected by `#baseUrlInput` is visible, fills it with
`https://api.gptbots.ai/v1` when it is, saves a screenshot to
`verification/taskpane_screenshot.png`, and closes the browser.

We embed the run as a function from an abstract world (current working
directory, whether the browser can launch, whether navigation succeeds,
the state of the `#baseUrlInput` element, the pre-existing screenshot
file) to an outcome: a termination status (`Except`), a trace of the
observable browser/console events in the order they happen, the final
element state, and the screenshot file present after the run.

Playwright semantics embedded here:
  * `locator.is_visible()` never raises; it returns `false` when the
    element is absent or hidden.
  * `page.screenshot(path=...)` defaults to `full_page=False`
    (viewport-only capture) and creates or overwrites the file.
  * leaving the `with sync_playwright()` block — normally or via an
    exception — stops the Playwright driver, which also terminates every
    browser it launched; this is the `driverStop` event.
  * `page.goto` on an unloadable `file://` target raises; that error is
    not caught anywhere in the script, so `run` ends in an error status
    and the Python entry point exits non-zero.
-/

/-- Fatal errors of the run: the browser runtime failing to launch, or
navigation to the target file failing. -/
inductive RunError
  | envError
  | navigationError
deriving DecidableEq, Repr

/-- State of the `#baseUrlInput` DOM element: whether it is rendered
visible, and its current value. -/
structure ElemState where
  visible : Bool
  value : String
deriving DecidableEq, Repr

/-- A screenshot file on disk: the path it was written to and whether it
was captured with `full_page=True`. -/
structure Shot where
  path : String
  fullPage : Bool
deriving DecidableEq, Repr

/-- Observable events of one run, in order of occurrence. -/
inductive Event
  | launch
  | printed (s : String)
  | navigate (url : String)
  | queryVisible (selector : String) (result : Bool)
  | fill (selector : String) (value : String)
  | screenshot (path : String) (fullPage : Bool)
  | browserClose
  | driverStop
deriving DecidableEq, Repr

/-- The ambient world a run starts in. -/
structure World where
  /-- absolute path returned by `os.getcwd()` -/
  cwd : String
  /-- whether `p.chromium.launch(headless=True)` succeeds -/
  launchOk : Bool
  /-- whether `page.goto(filepath)` succeeds (the file exists and loads) -/
  navOk : Bool
  /-- the `#baseUrlInput` element in the loaded page, if present -/
  element : Option ElemState
  /-- screenshot file already on disk before the run, if any -/
  priorShot : Option Shot
deriving DecidableEq, Repr

/-- `locator.is_visible()`: `false` for an absent element, otherwise the
element's visibility; never raises. -/
def isVisibleOf : Option ElemState → Bool
  | some e => e.visible
  | none => false

/-- `locator.fill(v)`: set the element's value. -/
def fillElem (v : String) : Option ElemState → Option ElemState
  | some e => some { e with value := v }
  | none => none

/-- `filepath = f'file://{cwd}/src/taskpane/taskpane.html'`. -/
def targetFileUrl (cwd : String) : String :=
  "file://" ++ cwd ++ "/src/taskpane/taskpane.html"

/-- OS resolution of a relative path against the working directory. -/
def resolveRel (cwd rel : String) : String := cwd ++ "/" ++ rel

/-- The relative path passed to `page.screenshot`. -/
def screenshotRelPath : String := "verification/taskpane_screenshot.png"

/-- The literal filled into the input when it is visible. -/
def baseUrlValue : String := "https://api.gptbots.ai/v1"

/-- Outcome of one run. -/
structure RunOut where
  status : Except RunError Unit
  trace : List Event
  finalElement : Option ElemState
  screenshotAfter : Option Shot
deriving Repr

/-- The body of `run()` in `verify_taskpane.py`, step for step.  The
`with sync_playwright()` block guarantees a trailing `driverStop` on
every path, including the two raising ones. -/
def run (w : World) : RunOut :=
  if w.launchOk then
    let url := targetFileUrl w.cwd
    if w.navOk then
      if isVisibleOf w.element then
        { status := Except.ok ()
          trace := [Event.launch,
                    Event.printed ("Navigating to " ++ url),
                    Event.navigate url,
                    Event.queryVisible "#baseUrlInput" (isVisibleOf w.element),
                    Event.printed "Base URL input is visible",
                    Event.fill "#baseUrlInput" baseUrlValue,
                    Event.screenshot screenshotRelPath false,
                    Event.browserClose,
                    Event.driverStop]
          finalElement := fillElem baseUrlValue w.element
          screenshotAfter :=
            some { path := resolveRel w.cwd screenshotRelPath, fullPage := false } }
      else
        { status := Except.ok ()
          trace := [Event.launch,
                    Event.printed ("Navigating to " ++ url),
                    Event.navigate url,
                    Event.queryVisible "#baseUrlInput" (isVisibleOf w.element),
                    Event.printed "Base URL input NOT visible",
                    Event.screenshot screenshotRelPath false,
                    Event.browserClose,
                    Event.driverStop]
          finalElement := w.element
          screenshotAfter :=
            some { path := resolveRel w.cwd screenshotRelPath, fullPage := false } }
    else
      { status := Except.error RunError.navigationError
        trace := [Event.launch,
                  Event.printed ("Navigating to " ++ url),
                  Event.navigate url,
                  Event.driverStop]
        finalElement := w.element
        screenshotAfter := w.priorShot }
  else
    { status := Except.error RunError.envError
      trace := [Event.driverStop]
      finalElement := w.element
      screenshotAfter := w.priorShot }

/-- The process entry point `if __name__ == '__main__': run()`: the OS
hands the process an argument vector and an environment, and the script
reads neither. -/
def processMain (argv : List String) (env : List (String × String))
    (w : World) : RunOut :=
  run w

/-- Exit code of the Python process: 0 on normal completion, non-zero
when an uncaught exception reaches the interpreter boundary. -/
def exitCode (o : RunOut) : Nat :=
  match o.status with
  | Except.ok _ => 0
  | Except.error _ => 1

/-- Lines written to standard output, in order. -/
def prints (t : List Event) : List String :=
  t.filterMap fun e =>
    match e with
    | Event.printed s => some s
    | _ => none

/-- Whether a browser process is still running after the trace: launching
starts one, `browser.close()` and the driver teardown stop it. -/
def browserLeaked (t : List Event) : Bool :=
  t.foldl
    (fun running e =>
      match e with
      | Event.launch => true
      | Event.browserClose => false
      | Event.driverStop => false
      | _ => running)
    false

/-- The coarse step classification used by the ordering claim; console
output and driver teardown are not steps of the sequence. -/
inductive StepKind
  | launch
  | navigate
  | query
  | fill
  | screenshot
  | close
deriving DecidableEq, Repr

/-- Classify an event as one of the ordered steps. -/
def stepKind : Event → Option StepKind
  | Event.launch => some StepKind.launch
  | Event.navigate _ => some StepKind.navigate
  | Event.queryVisible _ _ => some StepKind.query
  | Event.fill _ _ => some StepKind.fill
  | Event.screenshot _ _ => some StepKind.screenshot
  | Event.browserClose => some StepKind.close
  | _ => none

/-- A world whose page has a visible, empty `#baseUrlInput`. -/
def wVisible : World :=
  { cwd := "/repo"
    launchOk := true
    navOk := true
    element := some { visible := true, value := "" }
    priorShot := none }

/-- A world whose page lacks the `#baseUrlInput` element. -/
def wAbsent : World :=
  { cwd := "/repo"
    launchOk := true
    navOk := true
    element := none
    priorShot := none }

/-- A world where the target HTML file is missing, with a stale
screenshot already on disk. -/
def wNavFail : World :=
  { cwd := "/repo"
    launchOk := true
    navOk := false
    element := none
    priorShot := some { path := "/repo/verification/taskpane_screenshot.png", fullPage := false } }

theorem navLine_ne_visMsg (s : String) :
    "Navigating to " ++ s ≠ "Base URL input is visible" := by
  intro h
  have h2 := congrArg String.data h
  rw [String.data_append] at h2
  simp at h2

theorem navLine_ne_notVisMsg (s : String) :
    "Navigating to " ++ s ≠ "Base URL input NOT visible" := by
  intro h
  have h2 := congrArg String.data h
  rw [String.data_append] at h2
  simp at h2

/-- C1: when navigation succeeds and `#baseUrlInput` is visible, the run
reports visibility and leaves the element's value equal to the literal
`https://api.gptbots.ai/v1`. -/
theorem visible_branch_fills_value (w : World)
    (hl : w.launchOk = true) (hn : w.navOk = true)
    (hv : isVisibleOf w.element = true) :
    "Base URL input is visible" ∈ prints (run w).trace ∧
    ∃ e : ElemState, (run w).finalElement = some e ∧
      e.value = "https://api.gptbots.ai/v1" := by
  obtain ⟨e0, he⟩ : ∃ e0, w.element = some e0 := by
    cases h : w.element with
    | none => rw [h] at hv; simp [isVisibleOf] at hv
    | some e0 => exact ⟨e0, rfl⟩
  refine ⟨?_, ?_⟩
  · simp [run, hl, hn, hv, prints]
  · refine ⟨{ e0 with value := baseUrlValue }, ?_, rfl⟩
    rw [he] at hv
    simp [run, hl, hn, hv, he, fillElem]

/-- C2: when navigation succeeds but `#baseUrlInput` is absent or not
visible, the run does not raise, it reports "NOT visible", no fill occurs
and the element (the DOM) is left unchanged, and the screenshot step is
still reached. -/
theorem not_visible_branch_non_fatal (w : World)
    (hl : w.launchOk = true) (hn : w.navOk = true)
    (hv : isVisibleOf w.element = false) :
    (run w).status = Except.ok () ∧
    "Base URL input NOT visible" ∈ prints (run w).trace ∧
    (∀ sel v, Event.fill sel v ∉ (run w).trace) ∧
    (run w).finalElement = w.element ∧
    Event.screenshot screenshotRelPath false ∈ (run w).trace := by
  refine ⟨?_, ?_, ?_, ?_, ?_⟩ <;> simp [run, hl, hn, hv, prints]

/-- C3: on every execution path — normal completion, the not-visible
branch, launch failure, or a navigation error — no browser process is
left running when the run ends. -/
theorem browser_never_leaked (w : World) :
    browserLeaked (run w).trace = false := by
  cases hl : w.launchOk <;> cases hn : w.navOk <;>
    cases hv : isVisibleOf w.element <;>
      simp [run, hl, hn, hv, browserLeaked]

/-- C4: if the target HTML file cannot be loaded, the run ends with a
navigation error that reaches the process boundary (non-zero exit), no
screenshot event happens, and the screenshot file on disk is whatever
was there before. -/
theorem nav_failure_no_screenshot (w : World)
    (hl : w.launchOk = true) (hn : w.navOk = false) :
    (run w).status = Except.error RunError.navigationError ∧
    exitCode (run w) ≠ 0 ∧
    (∀ path fp, Event.screenshot path fp ∉ (run w).trace) ∧
    (run w).screenshotAfter = w.priorShot := by
  refine ⟨?_, ?_, ?_, ?_⟩ <;> simp [run, hl, hn, exitCode]

/-- C5: every URL the run navigates to is exactly `file://` ++ cwd ++
`/src/taskpane/taskpane.html`, and in particular carries the `file://`
scheme. -/
theorem navigated_url_is_local_file (w : World) (url : String)
    (h : Event.navigate url ∈ (run w).trace) :
    url = "file://" ++ w.cwd ++ "/src/taskpane/taskpane.html" ∧
    ∃ rest : String, url = "file://" ++ rest := by
  have hurl : url = targetFileUrl w.cwd := by
    cases hl : w.launchOk <;> cases hn : w.navOk <;>
      cases hv : isVisibleOf w.element <;>
        simp [run, hl, hn, hv] at h <;> exact h
  refine ⟨hurl, w.cwd ++ "/src/taskpane/taskpane.html", ?_⟩
  rw [hurl]
  simp [targetFileUrl, String.append_assoc]

/-- C6 counterexample: in a concrete successful run, no screenshot event
with `full_page=True` occurs — `page.screenshot(path=...)` is called
without `full_page`, and the Playwright default is `False`, so the
capture is viewport-only, refuting the claim that a full-page screenshot
is taken. -/
theorem full_page_screenshot_refuted :
    wVisible.launchOk = true ∧ wVisible.navOk = true ∧
    Event.screenshot screenshotRelPath true ∉ (run wVisible).trace := by
  refine ⟨rfl, rfl, ?_⟩
  simp [run, wVisible, screenshotRelPath, isVisibleOf, baseUrlValue, targetFileUrl]

/-- C6 amended: whenever navigation succeeds the run captures a
viewport (not full-page) screenshot and writes it to the fixed relative
path `verification/taskpane_screenshot.png`, producing that file
regardless of whether one existed before (create or overwrite). -/
theorem viewport_screenshot_written (w : World)
    (hl : w.launchOk = true) (hn : w.navOk = true) :
    Event.screenshot screenshotRelPath false ∈ (run w).trace ∧
    (run w).screenshotAfter =
      some { path := resolveRel w.cwd screenshotRelPath, fullPage := false } := by
  cases hv : isVisibleOf w.element <;> refine ⟨?_, ?_⟩ <;> simp [run, hl, hn, hv]

/-- C7: on a run where launch and navigation succeed, the observable
steps are exactly launch, navigate, visibility query, the fill when the
element is visible, screenshot, browser close — in that order, with
nothing reordered. -/
theorem steps_strictly_ordered (w : World)
    (hl : w.launchOk = true) (hn : w.navOk = true) :
    (run w).trace.filterMap stepKind =
      [StepKind.launch, StepKind.navigate, StepKind.query] ++
        (if isVisibleOf w.element then [StepKind.fill] else []) ++
        [StepKind.screenshot, StepKind.close] := by
  cases hv : isVisibleOf w.element <;> simp [run, hl, hn, hv, stepKind]

/-- C8: the run reads neither the argument vector nor the environment:
two invocations from the same world, however argv and env differ, have
identical status, trace (hence printed output and fill behavior) and
screenshot result. -/
theorem argv_env_not_consumed (argv argv2 : List String)
    (env env2 : List (String × String)) (w : World) :
    processMain argv env w = processMain argv2 env2 w := rfl

/-- C9: in every run where navigation succeeds, exactly one of the two
diagnostic lines is printed — counted over everything written to stdout —
and it appears at a strictly later position than the `Navigating to ...`
line. -/
theorem exactly_one_diagnostic (w : World)
    (hl : w.launchOk = true) (hn : w.navOk = true) :
    ((prints (run w).trace).count "Base URL input is visible" +
        (prints (run w).trace).count "Base URL input NOT visible") = 1 ∧
    ∃ i j : Nat, i < j ∧
      (prints (run w).trace)[i]? = some ("Navigating to " ++ targetFileUrl w.cwd) ∧
      ((prints (run w).trace)[j]? = some "Base URL input is visible" ∨
        (prints (run w).trace)[j]? = some "Base URL input NOT visible") := by
  have h1 := navLine_ne_visMsg (targetFileUrl w.cwd)
  have h2 := navLine_ne_notVisMsg (targetFileUrl w.cwd)
  cases hv : isVisibleOf w.element
  · have hps : prints (run w).trace =
        ["Navigating to " ++ targetFileUrl w.cwd, "Base URL input NOT visible"] := by
      simp [run, hl, hn, hv, prints]
    rw [hps]
    refine ⟨?_, 0, 1, Nat.zero_lt_one, rfl, Or.inr rfl⟩
    simp [List.count_cons, h1, h2]
  · have hps : prints (run w).trace =
        ["Navigating to " ++ targetFileUrl w.cwd, "Base URL input is visible"] := by
      simp [run, hl, hn, hv, prints]
    rw [hps]
    refine ⟨?_, 0, 1, Nat.zero_lt_one, rfl, Or.inl rfl⟩
    simp [List.count_cons, h1, h2]

/-- C10: both filesystem paths are resolved against the working
directory: a run started from `w.cwd` navigates to the `file://` URI of
`w.cwd/src/taskpane/taskpane.html` (the file it reads) and writes its
screenshot to `w.cwd/verification/taskpane_screenshot.png`. -/
theorem paths_resolved_against_cwd (w : World)
    (hl : w.launchOk = true) (hn : w.navOk = true) :
    (∀ url, Event.navigate url ∈ (run w).trace →
        url = "file://" ++ resolveRel w.cwd "src/taskpane/taskpane.html") ∧
    ∃ s : Shot, (run w).screenshotAfter = some s ∧
      s.path = resolveRel w.cwd screenshotRelPath := by
  have hlit : ("/" : String) ++ "src/taskpane/taskpane.html" =
      "/src/taskpane/taskpane.html" := rfl
  constructor
  · intro url hmem
    have hurl : url = targetFileUrl w.cwd := by
      cases hv : isVisibleOf w.element <;>
        simp [run, hl, hn, hv] at hmem <;> exact hmem
    rw [hurl]
    simp [targetFileUrl, resolveRel, String.append_assoc, hlit]
  · refine ⟨{ path := resolveRel w.cwd screenshotRelPath, fullPage := false }, ?_, rfl⟩
    cases hv : isVisibleOf w.element <;> simp [run, hl, hn, hv]

theorem visible_branch_fills_value_witness :
    wVisible.launchOk = true ∧ wVisible.navOk = true ∧
    isVisibleOf wVisible.element = true ∧
    ("Base URL input is visible" ∈ prints (run wVisible).trace ∧
      ∃ e : ElemState, (run wVisible).finalElement = some e ∧
        e.value = "https://api.gptbots.ai/v1") :=
  ⟨rfl, rfl, rfl, visible_branch_fills_value wVisible rfl rfl rfl⟩

theorem not_visible_branch_non_fatal_witness :
    wAbsent.launchOk = true ∧ wAbsent.navOk = true ∧
    isVisibleOf wAbsent.element = false ∧
    ((run wAbsent).status = Except.ok () ∧
      "Base URL input NOT visible" ∈ prints (run wAbsent).trace ∧
      (∀ sel v, Event.fill sel v ∉ (run wAbsent).trace) ∧
      (run wAbsent).finalElement = wAbsent.element ∧
      Event.screenshot screenshotRelPath false ∈ (run wAbsent).trace) :=
  ⟨rfl, rfl, rfl, not_visible_branch_non_fatal wAbsent rfl rfl rfl⟩

theorem nav_failure_no_screenshot_witness :
    wNavFail.launchOk = true ∧ wNavFail.navOk = false ∧
    ((run wNavFail).status = Except.error RunError.navigationError ∧
      exitCode (run wNavFail) ≠ 0 ∧
      (∀ path fp, Event.screenshot path fp ∉ (run wNavFail).trace) ∧
      (run wNavFail).screenshotAfter = wNavFail.priorShot) :=
  ⟨rfl, rfl, nav_failure_no_screenshot wNavFail rfl rfl⟩

theorem navigated_url_is_local_file_witness :
    Event.navigate (targetFileUrl "/repo") ∈ (run wVisible).trace ∧
    (targetFileUrl "/repo" =
        "file://" ++ wVisible.cwd ++ "/src/taskpane/taskpane.html" ∧
      ∃ rest : String, targetFileUrl "/repo" = "file://" ++ rest) :=
  ⟨by decide, navigated_url_is_local_file wVisible (targetFileUrl "/repo") (by decide)⟩

theorem viewport_screenshot_written_witness :
    wVisible.launchOk = true ∧ wVisible.navOk = true ∧
    (Event.screenshot screenshotRelPath false ∈ (run wVisible).trace ∧
      (run wVisible).screenshotAfter =
        some { path := resolveRel wVisible.cwd screenshotRelPath, fullPage := false }) :=
  ⟨rfl, rfl, viewport_screenshot_written wVisible rfl rfl⟩

theorem steps_strictly_ordered_witness :
    wVisible.launchOk = true ∧ wVisible.navOk = true ∧
    (run wVisible).trace.filterMap stepKind =
      [StepKind.launch, StepKind.navigate, StepKind.query] ++
        (if isVisibleOf wVisible.element then [StepKind.fill] else []) ++
        [StepKind.screenshot, StepKind.close] :=
  ⟨rfl, rfl, steps_strictly_ordered wVisible rfl rfl⟩

theorem exactly_one_diagnostic_witness :
    wAbsent.launchOk = true ∧ wAbsent.navOk = true ∧
    (((prints (run wAbsent).trace).count "Base URL input is visible" +
        (prints (run wAbsent).trace).count "Base URL input NOT visible") = 1 ∧
      ∃ i j : Nat, i < j ∧
        (prints (run wAbsent).trace)[i]? =
          some ("Navigating to " ++ targetFileUrl wAbsent.cwd) ∧
        ((prints (run wAbsent).trace)[j]? = some "Base URL input is visible" ∨
          (prints (run wAbsent).trace)[j]? = some "Base URL input NOT visible")) :=
  ⟨rfl, rfl, exactly_one_diagnostic wAbsent rfl rfl⟩

theorem paths_resolved_against_cwd_witness :
    wAbsent.launchOk = true ∧ wAbsent.navOk = true ∧
    ((∀ url, Event.navigate url ∈ (run wAbsent).trace →
        url = "file://" ++ resolveRel wAbsent.cwd "src/taskpane/taskpane.html") ∧
      ∃ s : Shot, (run wAbsent).screenshotAfter = some s ∧
        s.path = resolveRel wAbsent.cwd screenshotRelPath) :=
  ⟨rfl, rfl, paths_resolved_against_cwd wAbsent rfl rfl⟩
